import Mathlib

/-!
# Verification of the qibla-compass engine

Shallow embedding of `src/index.js` (the `useQiblaCompass` hook).

Carriers chosen for the embedding:
* JavaScript numbers that only flow through piecewise-linear arithmetic with
  decimal constants (`degree`, `direction`, the rotation derivations) are
  modelled as `ℚ`, keeping every predicate decidable.
* Numbers that flow through trigonometry (`calculate`, `angle`) are modelled
  as `ℝ`, with `Math.atan2 y x` embedded as `Complex.arg ⟨x, y⟩` and
  `Math.round` as Mathlib's `round` (both round halves up, JS via
  `⌊x + 0.5⌋`).
* The hook's pieces of `useState` are gathered into one record
  `CompassState`; `initCompass` becomes a function from the external
  providers' answers (`Env`) and a state to the next state, and the
  magnetometer listener becomes `onSample`.
-/

namespace QiblaCompass

open Real

/-- JavaScript `Math.atan2 y x`, embedded as the argument of the complex
number `x + y·i`, which agrees with `atan2` on all of `ℝ × ℝ`
(including `atan2 0 0 = 0`). -/
noncomputable def atan2 (y x : ℝ) : ℝ := Complex.arg ⟨x, y⟩

/-- A raw magnetometer sample restricted to the horizontal plane,
the `{x, y}` destructured inside `angle`. -/
structure MagSample where
  x : ℝ
  y : ℝ

/-- Source function `angle` (`src/index.js` lines 67-78) before the final `Math.round`:
`0` when the argument is falsy (`null`/`0`), otherwise `atan2(y, x)` in
degrees with `2π` added first when the radian value is negative. -/
noncomputable def angleRaw (magnetometer : Option MagSample) : ℝ :=
  match magnetometer with
  | none => 0
  | some s =>
      if 0 ≤ atan2 s.y s.x then
        atan2 s.y s.x * (180 / π)
      else
        (atan2 s.y s.x + 2 * π) * (180 / π)

/-- Source function `angle` (`src/index.js` lines 67-78): the rounded heading. -/
noncomputable def angle (magnetometer : Option MagSample) : ℤ :=
  round (angleRaw magnetometer)

/-- Stage 1 as the spec words it: `atan2(y, x)` converted to degrees, with
`360` added when the atan2 result is negative, rounded to the nearest
integer degree. Used to compare against the source's `angle`. -/
noncomputable def angleSpec (s : MagSample) : ℤ :=
  round (if atan2 s.y s.x * (180 / π) < 0 then
           atan2 s.y s.x * (180 / π) + 360
         else
           atan2 s.y s.x * (180 / π))

/-- Source function `direction` (`src/index.js` lines 80-98): the eight-way sector
classifier, transcribed condition by condition. -/
def direction (degree : ℚ) : String :=
  if 22.5 ≤ degree ∧ degree < 67.5 then "NE"
  else if 67.5 ≤ degree ∧ degree < 112.5 then "E"
  else if 112.5 ≤ degree ∧ degree < 157.5 then "SE"
  else if 157.5 ≤ degree ∧ degree < 202.5 then "S"
  else if 202.5 ≤ degree ∧ degree < 247.5 then "SW"
  else if 247.5 ≤ degree ∧ degree < 292.5 then "W"
  else if 292.5 ≤ degree ∧ degree < 337.5 then "NW"
  else "N"

/-- Source function `degree` (`src/index.js` lines 100-102): the device-frame
correction `magnetometer - 90 >= 0 ? magnetometer - 90 : magnetometer + 271`. -/
def degree (magnetometer : ℚ) : ℚ :=
  if 0 ≤ magnetometer - 90 then magnetometer - 90 else magnetometer + 271

/-- Source function `calculate` (`src/index.js` lines 104-118): great-circle bearing to
the Kaaba via the forward-azimuth formula, transcribed constant for
constant. -/
noncomputable def calculate (latitude longitude : ℝ) : ℝ :=
  let latk : ℝ := 21.4225 * π / 180
  let longk : ℝ := 39.8264 * π / 180
  let phi : ℝ := latitude * π / 180
  let lambda : ℝ := longitude * π / 180
  (180 / π) *
    atan2 (Real.sin (longk - lambda))
      (Real.cos phi * Real.tan latk - Real.sin phi * Real.cos (longk - lambda))

/-- An observer position, as destructured from `location.coords`. -/
structure GeoPoint where
  latitude : ℝ
  longitude : ℝ

/-- The fixed target of the bearing computation (the Kaaba),
`{21.4225, 39.8264}`. -/
def fixedTarget : GeoPoint := ⟨21.4225, 39.8264⟩

/-- The forward-azimuth formula as the spec words it: both points converted
to radians, `Δλ = target.longitude − observer.longitude`, and
`atan2(sin Δλ, cos φ_o · tan φ_t − sin φ_o · cos Δλ)` converted back to
degrees. Used to compare against the source's `calculate`. -/
noncomputable def bearingSpec (observer : GeoPoint) : ℝ :=
  let phiO : ℝ := observer.latitude * π / 180
  let phiT : ℝ := fixedTarget.latitude * π / 180
  let dl : ℝ := (fixedTarget.longitude - observer.longitude) * π / 180
  (180 / π) *
    atan2 (Real.sin dl)
      (Real.cos phiO * Real.tan phiT - Real.sin phiO * Real.cos dl)

/-- The answers the two external providers give during one run of
`initCompass`: `Magnetometer.isAvailableAsync`, the `status` field of
`Location.requestForegroundPermissionsAsync`, and the outcome of
`Location.getCurrentPositionAsync` (`none` models a rejected promise). -/
structure Env where
  sensorAvailable : Bool
  permissionStatus : String
  position : Option GeoPoint

/-- The hook's `useState` cells gathered into one record:
`subscription` (carrying the update interval passed to
`Magnetometer.setUpdateInterval`), `magnetometer`, `qiblad`, `error`,
`isLoading`. -/
structure CompassState where
  subscription : Option ℕ
  magnetometer : ℤ
  qiblad : ℝ
  error : Option String
  isLoading : Bool

/-- The initial values of the five `useState` cells
(`src/index.js` lines 15-19). -/
def initialState : CompassState :=
  { subscription := none
    magnetometer := 0
    qiblad := 0
    error := none
    isLoading := true }

/-- Source function `subscribe` (`src/index.js` lines 53-60): sets the 100 ms update
interval and registers the magnetometer listener. -/
def subscribe (s : CompassState) : CompassState :=
  { s with subscription := some 100 }

/-- Source function `initCompass` (`src/index.js` lines 21-43) as a state transformer.
The `try { ... } finally { setIsLoading(false); subscribe(); }` runs its
`finally` block whether or not `getCurrentPositionAsync` succeeded, so both
branches of the `match` end in `subscribe`; a rejected location promise
(`position = none`) leaves `qiblad` and `error` untouched. -/
noncomputable def initCompass (env : Env) (s : CompassState) : CompassState :=
  if env.sensorAvailable = false then
    { s with error := some "Compass is not available on this device"
             isLoading := false }
  else if env.permissionStatus ≠ "granted" then
    { s with error := some "Location permission not granted"
             isLoading := false }
  else
    match env.position with
    | some loc =>
        subscribe { s with qiblad := calculate loc.latitude loc.longitude
                           isLoading := false }
    | none =>
        subscribe { s with isLoading := false }

/-- The magnetometer listener from `subscribe`
(`setMagnetometer(angle(data))`): the only state change a sensor tick
makes. -/
noncomputable def onSample (s : CompassState) (data : MagSample) : CompassState :=
  { s with magnetometer := angle (some data) }

/-- The record the hook returns (`src/index.js` lines 120-134): the derived
outputs recomputed from the current state on every render. -/
structure Snapshot where
  qiblad : ℝ
  compassDirection : String
  compassDegree : ℚ
  compassRotate : ℚ
  kabaRotate : ℝ
  error : Option String
  isLoading : Bool

/-- The hook's returned record as a function of the state:
`compassDirection = direction(degree(magnetometer))`,
`compassDegree = degree(magnetometer)`,
`compassRotate = 360 - degree(magnetometer)`,
`kabaRotate = 360 - degree(magnetometer) + qiblad`. -/
def snapshot (s : CompassState) : Snapshot :=
  { qiblad := s.qiblad
    compassDirection := direction (degree (s.magnetometer : ℚ))
    compassDegree := degree (s.magnetometer : ℚ)
    compassRotate := 360 - degree (s.magnetometer : ℚ)
    kabaRotate := ((360 - degree (s.magnetometer : ℚ) : ℚ) : ℝ) + s.qiblad
    error := s.error
    isLoading := s.isLoading }

/-- The quantity `(360 - h) mod 360` as the spec's rotation-derivation sentence words
it: the representative of `360 - h` in `[0, 360)`. -/
def wrap360 (x : ℚ) : ℚ := x - 360 * ⌊x / 360⌋

/-! ## Theorems -/

/-- C2: for every rawHeading value, the Stage 2 device-frame correction
returns `rawHeading − 90` when `rawHeading − 90 ≥ 0` and `rawHeading + 271`
otherwise; in particular it maps `0 ↦ 271`, `90 ↦ 0`, and `45 ↦ 316`. -/
theorem degree_piecewise :
    (∀ m : ℚ, (0 ≤ m - 90 → degree m = m - 90) ∧
              (m - 90 < 0 → degree m = m + 271)) ∧
    degree 0 = 271 ∧ degree 90 = 0 ∧ degree 45 = 316 := by
  refine ⟨fun m => ⟨fun h => ?_, fun h => ?_⟩, ?_, ?_, ?_⟩
  · rw [degree, if_pos h]
  · rw [degree, if_neg (not_le.mpr h)]
  · norm_num [degree]
  · norm_num [degree]
  · norm_num [degree]

/-- Witness for `degree_piecewise`: both branch hypotheses discharged at
concrete inputs 100 and 45. -/
theorem degree_piecewise_witness :
    (0 ≤ (100 : ℚ) - 90 ∧ degree 100 = 100 - 90) ∧
    ((45 : ℚ) - 90 < 0 ∧ degree 45 = 45 + 271) :=
  ⟨⟨by norm_num, (degree_piecewise.1 100).1 (by norm_num)⟩,
   ⟨by norm_num, (degree_piecewise.1 45).2 (by norm_num)⟩⟩

/-- C7 counterexample: the integer rawHeading 89 lies in `[0, 360)` and is
a Stage 1 output, yet the derived deviceHeading is `89 + 271 = 360`, which
is not below 360, so deviceHeading does not stay in `[0, 360)`. -/
theorem degree_range_counterexample :
    (0 : ℚ) ≤ 89 ∧ (89 : ℚ) < 360 ∧ degree 89 = 360 ∧ ¬ degree 89 < 360 := by
  norm_num [degree]

lemma degree_bounds (n : ℤ) (h0 : 0 ≤ n) (h1 : n < 360) :
    0 ≤ degree (n : ℚ) ∧ degree (n : ℚ) ≤ 360 := by
  have hq0 : (0 : ℚ) ≤ (n : ℚ) := by exact_mod_cast h0
  have hq1 : (n : ℚ) < 360 := by exact_mod_cast h1
  unfold degree
  split_ifs with h
  · constructor <;> linarith
  · have hn : (n : ℚ) < 90 := by linarith
    have hn' : n < 90 := by exact_mod_cast hn
    have hn89 : (n : ℚ) ≤ 89 := by exact_mod_cast (show n ≤ 89 by omega)
    constructor <;> linarith

/-- C7 amended: for every integer rawHeading in `[0, 360)` produced by
Stage 1, the derived deviceHeading lies in the closed range `[0, 360]`
(360 itself is reached, at rawHeading 89). -/
theorem degree_range (n : ℤ) (h0 : 0 ≤ n) (h1 : n < 360) :
    0 ≤ degree (n : ℚ) ∧ degree (n : ℚ) ≤ 360 :=
  degree_bounds n h0 h1

/-- Witness for `degree_range`: the bounds hold at rawHeading 89. -/
theorem degree_range_witness :
    (0 : ℤ) ≤ 89 ∧ (89 : ℤ) < 360 ∧
    (0 ≤ degree ((89 : ℤ) : ℚ) ∧ degree ((89 : ℤ) : ℚ) ≤ 360) :=
  ⟨by norm_num, by norm_num, degree_range 89 (by norm_num) (by norm_num)⟩

/-- C9: on integer rawHeadings in `[0, 359]` the device-frame correction
never yields 270: inputs `90..359` map onto `0..269` (each value attained)
and inputs `0..89` map onto `271..360` (each value attained), and 360 is
reached at rawHeading 89. -/
theorem degree_misses_270 :
    (∀ n : ℤ, 0 ≤ n → n ≤ 359 →
      degree (n : ℚ) ≠ 270 ∧
      (90 ≤ n → degree (n : ℚ) = (n : ℚ) - 90 ∧
        0 ≤ degree (n : ℚ) ∧ degree (n : ℚ) ≤ 269) ∧
      (n ≤ 89 → degree (n : ℚ) = (n : ℚ) + 271 ∧
        271 ≤ degree (n : ℚ) ∧ degree (n : ℚ) ≤ 360)) ∧
    (∀ v : ℤ, 0 ≤ v → v ≤ 269 →
      ∃ n : ℤ, 90 ≤ n ∧ n ≤ 359 ∧ degree (n : ℚ) = (v : ℚ)) ∧
    (∀ v : ℤ, 271 ≤ v → v ≤ 360 →
      ∃ n : ℤ, 0 ≤ n ∧ n ≤ 89 ∧ degree (n : ℚ) = (v : ℚ)) ∧
    degree ((89 : ℤ) : ℚ) = 360 := by
  refine ⟨fun n h0 h1 => ?_, fun v h0 h1 => ?_, fun v h0 h1 => ?_, by norm_num [degree]⟩
  · have hq0 : (0 : ℚ) ≤ (n : ℚ) := by exact_mod_cast h0
    have hq1 : (n : ℚ) ≤ 359 := by exact_mod_cast h1
    refine ⟨?_, fun h90 => ?_, fun h89 => ?_⟩
    · intro heq
      unfold degree at heq
      split_ifs at heq
      · have : (n : ℚ) = 360 := by linarith
        have : n = 360 := by exact_mod_cast this
        omega
      · have : (n : ℚ) = -1 := by linarith
        have : n = -1 := by exact_mod_cast this
        omega
    · have hq90 : (90 : ℚ) ≤ (n : ℚ) := by exact_mod_cast h90
      unfold degree
      rw [if_pos (by linarith)]
      refine ⟨rfl, by linarith, by linarith⟩
    · have hq89 : (n : ℚ) ≤ 89 := by exact_mod_cast h89
      unfold degree
      rw [if_neg (by intro h; linarith)]
      refine ⟨rfl, by linarith, by linarith⟩
  · refine ⟨v + 90, by omega, by omega, ?_⟩
    have hq0 : (0 : ℚ) ≤ (v : ℚ) := by exact_mod_cast h0
    unfold degree
    rw [if_pos (by push_cast; linarith)]
    push_cast
    ring
  · refine ⟨v - 271, by omega, by omega, ?_⟩
    have hq1 : (v : ℚ) ≤ 360 := by exact_mod_cast h1
    unfold degree
    rw [if_neg (by push_cast; intro h; linarith)]
    push_cast
    ring

/-- Witness for `degree_misses_270`: its quantified parts instantiated at
rawHeading 100, attained value 10 in `0..269`, and attained value 300 in
`271..360`. -/
theorem degree_misses_270_witness :
    ((0 : ℤ) ≤ 100 ∧ (100 : ℤ) ≤ 359 ∧ degree ((100 : ℤ) : ℚ) ≠ 270) ∧
    ((0 : ℤ) ≤ 10 ∧ (10 : ℤ) ≤ 269 ∧
      ∃ n : ℤ, 90 ≤ n ∧ n ≤ 359 ∧ degree (n : ℚ) = ((10 : ℤ) : ℚ)) ∧
    ((271 : ℤ) ≤ 300 ∧ (300 : ℤ) ≤ 360 ∧
      ∃ n : ℤ, 0 ≤ n ∧ n ≤ 89 ∧ degree (n : ℚ) = ((300 : ℤ) : ℚ)) :=
  ⟨⟨by norm_num, by norm_num,
    (degree_misses_270.1 100 (by norm_num) (by norm_num)).1⟩,
   ⟨by norm_num, by norm_num,
    degree_misses_270.2.1 10 (by norm_num) (by norm_num)⟩,
   ⟨by norm_num, by norm_num,
    degree_misses_270.2.2.1 300 (by norm_num) (by norm_num)⟩⟩

/-- C10: before any magnetometer sample has arrived (the retained sample
state is its initial 0), the hook's snapshot shows `compassDegree = 271`,
`compassDirection = "W"`, and `compassRotate = 89`. -/
theorem initial_snapshot :
    initialState.magnetometer = 0 ∧
    (snapshot initialState).compassDegree = 271 ∧
    (snapshot initialState).compassDirection = "W" ∧
    (snapshot initialState).compassRotate = 89 := by
  refine ⟨rfl, ?_, ?_, ?_⟩ <;>
    norm_num [snapshot, initialState, degree, direction]

/-- C4: on `[0, 360)` the Sector Classifier realises exactly the half-open
45°-wide bins with boundaries at odd multiples of 22.5°, sending everything
outside the seven named bins — i.e. `[337.5, 360) ∪ [0, 22.5)` — to `"N"`;
its output is always one of the 8 labels; and `0 ↦ "N"`, `22.4 ↦ "N"`,
`22.5 ↦ "NE"`, `359.9 ↦ "N"`. -/
theorem direction_bins :
    (∀ d : ℚ, 0 ≤ d → d < 360 →
      (22.5 ≤ d ∧ d < 67.5 → direction d = "NE") ∧
      (67.5 ≤ d ∧ d < 112.5 → direction d = "E") ∧
      (112.5 ≤ d ∧ d < 157.5 → direction d = "SE") ∧
      (157.5 ≤ d ∧ d < 202.5 → direction d = "S") ∧
      (202.5 ≤ d ∧ d < 247.5 → direction d = "SW") ∧
      (247.5 ≤ d ∧ d < 292.5 → direction d = "W") ∧
      (292.5 ≤ d ∧ d < 337.5 → direction d = "NW") ∧
      (337.5 ≤ d ∨ d < 22.5 → direction d = "N")) ∧
    (∀ d : ℚ, direction d = "N" ∨ direction d = "NE" ∨ direction d = "E" ∨
      direction d = "SE" ∨ direction d = "S" ∨ direction d = "SW" ∨
      direction d = "W" ∨ direction d = "NW") ∧
    direction 0 = "N" ∧ direction 22.4 = "N" ∧
    direction 22.5 = "NE" ∧ direction (359.9 : ℚ) = "N" := by
  refine ⟨fun d h0 h360 => ?_, fun d => ?_, ?_, ?_, ?_, ?_⟩
  · refine ⟨fun h => ?_, fun h => ?_, fun h => ?_, fun h => ?_,
            fun h => ?_, fun h => ?_, fun h => ?_, fun h => ?_⟩
    · obtain ⟨ha, hb⟩ := h
      rw [direction, if_pos ⟨ha, hb⟩]
    · obtain ⟨ha, hb⟩ := h
      rw [direction, if_neg (by rintro ⟨x, y⟩; linarith), if_pos ⟨ha, hb⟩]
    · obtain ⟨ha, hb⟩ := h
      rw [direction, if_neg (by rintro ⟨x, y⟩; linarith),
        if_neg (by rintro ⟨x, y⟩; linarith), if_pos ⟨ha, hb⟩]
    · obtain ⟨ha, hb⟩ := h
      rw [direction, if_neg (by rintro ⟨x, y⟩; linarith),
        if_neg (by rintro ⟨x, y⟩; linarith),
        if_neg (by rintro ⟨x, y⟩; linarith), if_pos ⟨ha, hb⟩]
    · obtain ⟨ha, hb⟩ := h
      rw [direction, if_neg (by rintro ⟨x, y⟩; linarith),
        if_neg (by rintro ⟨x, y⟩; linarith),
        if_neg (by rintro ⟨x, y⟩; linarith),
        if_neg (by rintro ⟨x, y⟩; linarith), if_pos ⟨ha, hb⟩]
    · obtain ⟨ha, hb⟩ := h
      rw [direction, if_neg (by rintro ⟨x, y⟩; linarith),
        if_neg (by rintro ⟨x, y⟩; linarith),
        if_neg (by rintro ⟨x, y⟩; linarith),
        if_neg (by rintro ⟨x, y⟩; linarith),
        if_neg (by rintro ⟨x, y⟩; linarith), if_pos ⟨ha, hb⟩]
    · obtain ⟨ha, hb⟩ := h
      rw [direction, if_neg (by rintro ⟨x, y⟩; linarith),
        if_neg (by rintro ⟨x, y⟩; linarith),
        if_neg (by rintro ⟨x, y⟩; linarith),
        if_neg (by rintro ⟨x, y⟩; linarith),
        if_neg (by rintro ⟨x, y⟩; linarith),
        if_neg (by rintro ⟨x, y⟩; linarith), if_pos ⟨ha, hb⟩]
    · rw [direction,
        if_neg (by rintro ⟨x, y⟩; rcases h with h | h <;> linarith),
        if_neg (by rintro ⟨x, y⟩; rcases h with h | h <;> linarith),
        if_neg (by rintro ⟨x, y⟩; rcases h with h | h <;> linarith),
        if_neg (by rintro ⟨x, y⟩; rcases h with h | h <;> linarith),
        if_neg (by rintro ⟨x, y⟩; rcases h with h | h <;> linarith),
        if_neg (by rintro ⟨x, y⟩; rcases h with h | h <;> linarith),
        if_neg (by rintro ⟨x, y⟩; rcases h with h | h <;> linarith)]
  · unfold direction
    split_ifs <;> simp
  · norm_num [direction]
  · norm_num [direction]
  · norm_num [direction]
  · norm_num [direction]

/-- Witness for `direction_bins`: the bin implications discharged at the
concrete deviceHeading 100, which lies in the east bin. -/
theorem direction_bins_witness :
    (0 : ℚ) ≤ 100 ∧ (100 : ℚ) < 360 ∧
    (67.5 ≤ (100 : ℚ) ∧ (100 : ℚ) < 112.5) ∧ direction 100 = "E" :=
  ⟨by norm_num, by norm_num, ⟨by norm_num, by norm_num⟩,
   (direction_bins.1 100 (by norm_num) (by norm_num)).2.1
     ⟨by norm_num, by norm_num⟩⟩

/-! ### Helper lemmas about `atan2` -/

lemma atan2_zero_one : atan2 0 1 = 0 := by
  unfold atan2
  rw [show (⟨1, 0⟩ : ℂ) = 1 from rfl, Complex.arg_one]

lemma atan2_one_zero : atan2 1 0 = π / 2 := by
  unfold atan2
  rw [show (⟨0, 1⟩ : ℂ) = Complex.I from rfl, Complex.arg_I]

lemma atan2_zero_neg_one : atan2 0 (-1) = π := by
  unfold atan2
  rw [show (⟨-1, 0⟩ : ℂ) = -1 by apply Complex.ext <;> simp, Complex.arg_neg_one]

lemma atan2_neg_one_zero : atan2 (-1) 0 = -(π / 2) := by
  unfold atan2
  rw [show (⟨0, -1⟩ : ℂ) = -Complex.I by apply Complex.ext <;> simp,
    Complex.arg_neg_I]

lemma atan2_deg_range (y x : ℝ) :
    -180 < 180 / π * atan2 y x ∧ 180 / π * atan2 y x ≤ 180 := by
  have hc : (0 : ℝ) < 180 / π := div_pos (by norm_num) Real.pi_pos
  obtain ⟨hlo, hhi⟩ := Complex.arg_mem_Ioc (⟨x, y⟩ : ℂ)
  have hπ : π ≠ 0 := Real.pi_ne_zero
  constructor
  · have h := mul_lt_mul_of_pos_left hlo hc
    have he : 180 / π * (-π) = -180 := by field_simp
    rw [he] at h
    exact h
  · have h := mul_le_mul_of_nonneg_left hhi (le_of_lt hc)
    have he : 180 / π * π = 180 := by field_simp
    rw [he] at h
    exact h

lemma angle_some_one_zero : angle (some ⟨1, 0⟩) = 0 := by
  unfold angle angleRaw
  dsimp only
  rw [atan2_zero_one]
  norm_num

lemma angle_some_zero_one : angle (some ⟨0, 1⟩) = 90 := by
  unfold angle angleRaw
  dsimp only
  rw [atan2_one_zero, if_pos (by positivity),
    show π / 2 * (180 / π) = 90 by field_simp; ring]
  norm_num

lemma angle_some_neg_one_zero : angle (some ⟨-1, 0⟩) = 180 := by
  unfold angle angleRaw
  dsimp only
  rw [atan2_zero_neg_one, if_pos (le_of_lt Real.pi_pos),
    show π * (180 / π) = 180 by field_simp]
  norm_num

lemma angle_some_zero_neg_one : angle (some ⟨0, -1⟩) = 270 := by
  unfold angle angleRaw
  dsimp only
  rw [atan2_neg_one_zero,
    if_neg (not_le.mpr (neg_lt_zero.mpr (by positivity))),
    show (-(π / 2) + 2 * π) * (180 / π) = 270 by field_simp; ring]
  norm_num

/-- C3: Stage 1 equals the spec's formulation — `atan2(y, x)` in degrees
with 360 added when the atan2 result is negative, rounded to the nearest
integer degree — and on the axis vectors it yields 0, 90, 180, 270; when
no sample has ever arrived the raw heading is 0. -/
theorem angle_stage1 :
    (∀ s : MagSample, angle (some s) = angleSpec s) ∧
    angle (some ⟨1, 0⟩) = 0 ∧
    angle (some ⟨0, 1⟩) = 90 ∧
    angle (some ⟨-1, 0⟩) = 180 ∧
    angle (some ⟨0, -1⟩) = 270 ∧
    angle none = 0 := by
  have hc : (0 : ℝ) < 180 / π := div_pos (by norm_num) Real.pi_pos
  have hπ : π ≠ 0 := Real.pi_ne_zero
  refine ⟨fun s => ?_, ?_, ?_, ?_, ?_, ?_⟩
  · unfold angle angleSpec angleRaw
    dsimp only
    rcases le_or_lt 0 (atan2 s.y s.x) with h | h
    · rw [if_pos h, if_neg (not_lt.mpr (mul_nonneg h (le_of_lt hc)))]
    · rw [if_neg (not_le.mpr h), if_pos (mul_neg_of_neg_of_pos h hc)]
      congr 1
      field_simp
      ring
  · exact angle_some_one_zero
  · exact angle_some_zero_one
  · exact angle_some_neg_one_zero
  · exact angle_some_zero_neg_one
  · unfold angle angleRaw
    dsimp only
    norm_num

/-- C1: for every observer position, `calculate` returns exactly the
spec's forward-azimuth formula toward the fixed target
`{21.4225, 39.8264}`, and the result is a signed value in `(−180, 180]`
with no normalization into `[0, 360)`. -/
theorem calculate_bearing (latitude longitude : ℝ) :
    calculate latitude longitude = bearingSpec ⟨latitude, longitude⟩ ∧
    -180 < calculate latitude longitude ∧
    calculate latitude longitude ≤ 180 := by
  refine ⟨?_, ?_⟩
  · simp only [calculate, bearingSpec, fixedTarget]
    rw [show 39.8264 * π / 180 - longitude * π / 180 =
        (39.8264 - longitude) * π / 180 by ring]
  · simp only [calculate]
    exact atan2_deg_range _ _

/-- C8 counterexample: deviceHeading 0 is reachable — the sample
`{x = 0, y = 1}` makes Stage 1 return rawHeading 90 and Stage 2 return
deviceHeading 0 — but the hook then shows `compassRotate = 360`, whereas
`(360 − 0) mod 360 = 0`; so faceRotation is neither `(360 − h) mod 360`
nor inside `[0, 360)`. -/
theorem compassRotate_counterexample :
    (onSample initialState ⟨0, 1⟩).magnetometer = 90 ∧
    (snapshot (onSample initialState ⟨0, 1⟩)).compassDegree = 0 ∧
    (snapshot (onSample initialState ⟨0, 1⟩)).compassRotate = 360 ∧
    wrap360 (360 - (snapshot (onSample initialState ⟨0, 1⟩)).compassDegree) = 0 ∧
    (snapshot (onSample initialState ⟨0, 1⟩)).compassRotate ≠
      wrap360 (360 - (snapshot (onSample initialState ⟨0, 1⟩)).compassDegree) ∧
    ¬ (snapshot (onSample initialState ⟨0, 1⟩)).compassRotate < 360 := by
  have h90 : angle (some ⟨0, 1⟩) = 90 := angle_some_zero_one
  refine ⟨?_, ?_, ?_, ?_, ?_, ?_⟩ <;>
    simp [onSample, snapshot, initialState, h90, degree, wrap360]

/-- C8 amended: for every state whose retained rawHeading is an integer in
`[0, 360)` (h being the derived deviceHeading and b the stored bearing),
faceRotation equals `360 − h` exactly — not reduced mod 360 — and lies in
the closed range `[0, 360]`, while targetRotation equals
`faceRotation + b` and is deliberately not wrapped into `[0, 360)`. -/
theorem rotation_derivation (s : CompassState)
    (h0 : 0 ≤ s.magnetometer) (h1 : s.magnetometer < 360) :
    (snapshot s).compassRotate = 360 - (snapshot s).compassDegree ∧
    0 ≤ (snapshot s).compassRotate ∧ (snapshot s).compassRotate ≤ 360 ∧
    (snapshot s).kabaRotate =
      (((snapshot s).compassRotate : ℚ) : ℝ) + s.qiblad := by
  obtain ⟨hl, hr⟩ := degree_bounds s.magnetometer h0 h1
  refine ⟨rfl, ?_, ?_, rfl⟩ <;> simp only [snapshot] <;> linarith

/-- Witness for `rotation_derivation`: the bounds hold at a state holding
rawHeading 100. -/
theorem rotation_derivation_witness :
    (0 ≤ ({ initialState with magnetometer := 100 } : CompassState).magnetometer) ∧
    (({ initialState with magnetometer := 100 } : CompassState).magnetometer < 360) ∧
    ((snapshot { initialState with magnetometer := 100 }).compassRotate =
        360 - (snapshot { initialState with magnetometer := 100 }).compassDegree ∧
      0 ≤ (snapshot { initialState with magnetometer := 100 }).compassRotate ∧
      (snapshot { initialState with magnetometer := 100 }).compassRotate ≤ 360 ∧
      (snapshot { initialState with magnetometer := 100 }).kabaRotate =
        (((snapshot { initialState with magnetometer := 100 }).compassRotate : ℚ) : ℝ) +
          ({ initialState with magnetometer := 100 } : CompassState).qiblad) :=
  ⟨by norm_num, by norm_num,
   rotation_derivation { initialState with magnetometer := 100 }
     (by norm_num) (by norm_num)⟩

/-- C6: when the sensor provider reports unavailable, `initCompass` records
the sensor-unavailable error, ends loading, and leaves the subscription
untouched (none is created); when the sensor is available but the location
permission is not granted, it records the permission error, ends loading,
and likewise creates no subscription. -/
theorem initCompass_failures (env : Env) (s : CompassState) :
    (env.sensorAvailable = false →
      (initCompass env s).error = some "Compass is not available on this device" ∧
      (initCompass env s).isLoading = false ∧
      (initCompass env s).subscription = s.subscription ∧
      (initCompass env s).qiblad = s.qiblad) ∧
    (env.sensorAvailable = true → env.permissionStatus ≠ "granted" →
      (initCompass env s).error = some "Location permission not granted" ∧
      (initCompass env s).isLoading = false ∧
      (initCompass env s).subscription = s.subscription ∧
      (initCompass env s).qiblad = s.qiblad) := by
  constructor
  · intro h
    simp [initCompass, h]
  · intro h hp
    simp [initCompass, h, hp]

/-- Witness for `initCompass_failures`: both failure scenarios run from the
initial state, with a concrete unavailable-sensor environment and a
concrete denied-permission environment; neither creates a subscription. -/
theorem initCompass_failures_witness :
    ((initCompass ⟨false, "granted", none⟩ initialState).error =
        some "Compass is not available on this device" ∧
      (initCompass ⟨false, "granted", none⟩ initialState).subscription = none) ∧
    ((initCompass ⟨true, "denied", none⟩ initialState).error =
        some "Location permission not granted" ∧
      (initCompass ⟨true, "denied", none⟩ initialState).subscription = none) := by
  have h1 := (initCompass_failures ⟨false, "granted", none⟩ initialState).1 rfl
  have h2 := (initCompass_failures ⟨true, "denied", none⟩ initialState).2 rfl
    (by decide)
  exact ⟨⟨h1.1, h1.2.2.1⟩, ⟨h2.1, h2.2.2.1⟩⟩

/-- C5: when the sensor is available and permission granted but the
one-shot location fix fails, the failure is swallowed: starting from the
initial state, `initCompass` still opens the 100 ms subscription, ends
loading, records no error, leaves the bearing at its default 0, and any
subsequent sample updates the heading-derived snapshot fields normally. -/
theorem initCompass_locationFailure (env : Env)
    (hs : env.sensorAvailable = true)
    (hp : env.permissionStatus = "granted")
    (hl : env.position = none) :
    (initCompass env initialState).isLoading = false ∧
    (initCompass env initialState).error = none ∧
    (initCompass env initialState).subscription = some 100 ∧
    (initCompass env initialState).qiblad = 0 ∧
    ∀ data : MagSample,
      (onSample (initCompass env initialState) data).magnetometer =
        angle (some data) ∧
      (snapshot (onSample (initCompass env initialState) data)).compassDegree =
        degree ((angle (some data) : ℤ) : ℚ) ∧
      (snapshot (onSample (initCompass env initialState) data)).compassDirection =
        direction (degree ((angle (some data) : ℤ) : ℚ)) ∧
      (snapshot (onSample (initCompass env initialState) data)).compassRotate =
        360 - degree ((angle (some data) : ℤ) : ℚ) := by
  simp [initCompass, hs, hp, hl, subscribe, initialState, onSample, snapshot]

/-- Witness for `initCompass_locationFailure`: the sensor-ok,
permission-granted, location-failed environment instantiated concretely,
with the sample `{x = 0, y = 1}` driving one update. -/
theorem initCompass_locationFailure_witness :
    ((initCompass ⟨true, "granted", none⟩ initialState).isLoading = false ∧
      (initCompass ⟨true, "granted", none⟩ initialState).error = none ∧
      (initCompass ⟨true, "granted", none⟩ initialState).subscription = some 100 ∧
      (initCompass ⟨true, "granted", none⟩ initialState).qiblad = 0) ∧
    (snapshot (onSample (initCompass ⟨true, "granted", none⟩ initialState)
        ⟨0, 1⟩)).compassDegree =
      degree ((angle (some ⟨0, 1⟩) : ℤ) : ℚ) := by
  have h := initCompass_locationFailure ⟨true, "granted", none⟩ rfl rfl rfl
  exact ⟨⟨h.1, h.2.1, h.2.2.1, h.2.2.2.1⟩, (h.2.2.2.2 ⟨0, 1⟩).2.1⟩

end QiblaCompass
